import Mathlib

/-!
Verification of the `zh_scraper` repository (file `zh_scraper.py`) against its
natural-language specification.

The whole program is the single function `get_extinction(galaxy, ra, dec,
radius, teff='all')`: it validates its inputs, performs one HTTP GET to a
galaxy-specific endpoint, and scans the visible text of the HTML response for
two labelled statistics.

Embedding choices:
* Python numbers (int/float) are modelled as exact rationals `ℚ`.  All concrete
  rationals are built with `Rat.divInt` so that they evaluate inside the kernel.
* The dynamically-typed `ra`/`dec` arguments are modelled by `PyVal`: either a
  numeric value or a non-numeric one (the program only asks `type(x) in
  {float,int}`).
* Each distinct `raise` site of the program is mapped to a constructor of
  `Err`, following the error taxonomy of the specification (the two coordinate
  type messages both map to `invalidCoordinateType`, the four out-of-range
  messages to `coordinateOutOfRange`).
* The HTTP layer is modelled by a `respond` oracle; `runQuery` additionally
  returns the list of requests that were issued, so that "no request is made
  before validation passes" is expressible.  HTML-to-text extraction
  (`BeautifulSoup(...).get_text()`) and `splitlines()` are delegated externals
  (out of scope per the specification), so a successful response carries the
  already-extracted visible text as a list of lines.
* String scanning (`strip`, `in`, `split('=')`, `split()`, `float(...)`) is
  re-implemented structurally on `List Char`, mirroring Python semantics on the
  relevant inputs; `float` is modelled on decimal/exponent literals (the forms
  `inf`/`nan`/underscores never occur in the texts under study).
-/

deriving instance DecidableEq for Except

namespace ZhScraper

/-- A Python value passed for `ra` or `dec`: either numeric (int or float,
modelled as an exact rational) or non-numeric (e.g. a string); the program only
inspects whether `type(x) in {float, int}`. -/
inductive PyVal where
  | num (x : ℚ)
  | nonNum (repr : String)
deriving DecidableEq

/-- Error kinds of `get_extinction`, one per trigger in the error taxonomy of
the specification; each `raise ValueError(...)` site of the source maps to the
corresponding constructor. -/
inductive Err where
  | invalidGalaxy
  | invalidCoordinateType
  | coordinateUnitMismatch
  | coordinateOutOfRange
  | invalidRadius
  | invalidTeff
  | requestFailed
  | noStarsFound
deriving DecidableEq

/-- Python `str.upper()` (the inputs of interest are ASCII). -/
def pyUpper (s : String) : String :=
  ⟨s.data.map Char.toUpper⟩

/-- Endpoint for the LMC (source line 44). -/
def lmcURL : String := "https://www.as.arizona.edu/~dennis/cgi-bin/lmcext.cgi"

/-- Endpoint for the SMC (source line 53). -/
def smcURL : String := "https://www.as.arizona.edu/~dennis/cgi-bin/smcext.cgi"

/-- 4.48, lower RA bound for the LMC (hours). -/
def lmcRaLo : ℚ := Rat.divInt 448 100

/-- 6.27, upper RA bound for the LMC (hours). -/
def lmcRaHi : ℚ := Rat.divInt 627 100

/-- -72.5, lower Dec bound for the LMC (degrees). -/
def lmcDecLo : ℚ := Rat.divInt (-725) 10

/-- -65.2, upper Dec bound for the LMC (degrees). -/
def lmcDecHi : ℚ := Rat.divInt (-652) 10

/-- 0.375, lower RA bound for the SMC (hours). -/
def smcRaLo : ℚ := Rat.divInt 375 1000

/-- 1.375, upper RA bound for the SMC (hours). -/
def smcRaHi : ℚ := Rat.divInt 1375 1000

/-- -74.9, lower Dec bound for the SMC (degrees). -/
def smcDecLo : ℚ := Rat.divInt (-749) 10

/-- -70.4, upper Dec bound for the SMC (degrees). -/
def smcDecHi : ℚ := Rat.divInt (-704) 10

/-- The request that `requests.get(base_url, params=params)` receives: the
galaxy's endpoint and the query parameters `ra`, `dec`, `searchrad`, `teff`
(source lines 70-77). -/
structure Request where
  base_url : String
  ra : ℚ
  dec : ℚ
  searchrad : ℚ
  teff : String
deriving DecidableEq

/-- The radius and teff checks and the construction of the request, shared by
both galaxy branches (source lines 64-77; in the source these sit after the
galaxy dispatch, on the path where no coordinate check raised). -/
def checkRest (base_url : String) (raV decV radius : ℚ) (teff : String) :
    Except Err Request :=
  if ¬ (0 < radius ∧ radius ≤ 12) then .error .invalidRadius
  else if ¬ (teff = "all" ∨ teff = "cool" ∨ teff = "hot") then .error .invalidTeff
  else .ok ⟨base_url, raV, decV, radius, teff⟩

/-- The validation stage of `get_extinction` (source lines 35-77): coordinate
type checks, galaxy dispatch with unit and bounds checks, radius and teff
checks, in source order; on success it yields the request that will be sent. -/
def validate (galaxy : String) (ra dec : PyVal) (radius : ℚ) (teff : String) :
    Except Err Request :=
  match ra with
  | .nonNum _ => .error .invalidCoordinateType
  | .num raV =>
    match dec with
    | .nonNum _ => .error .invalidCoordinateType
    | .num decV =>
      if pyUpper galaxy = "LMC" then
        if raV > 7 then .error .coordinateUnitMismatch
        else if ¬ (lmcRaLo ≤ raV ∧ raV ≤ lmcRaHi) then .error .coordinateOutOfRange
        else if ¬ (lmcDecLo ≤ decV ∧ decV ≤ lmcDecHi) then .error .coordinateOutOfRange
        else checkRest lmcURL raV decV radius teff
      else if pyUpper galaxy = "SMC" then
        if raV > 6 then .error .coordinateUnitMismatch
        else if ¬ (smcRaLo ≤ raV ∧ raV ≤ smcRaHi) then .error .coordinateOutOfRange
        else if ¬ (smcDecLo ≤ decV ∧ decV ≤ smcDecHi) then .error .coordinateOutOfRange
        else checkRest smcURL raV decV radius teff
      else .error .invalidGalaxy

/-- Whitespace for Python `str.strip()` / `str.split()` (ASCII fragment). -/
def isPySpace (c : Char) : Bool :=
  c == ' ' || c == '\t' || c == '\n' || c == '\r' || c == '\x0b' || c == '\x0c'

/-- Python `str.strip()` on the characters of a line. -/
def pyStrip (l : List Char) : List Char :=
  ((l.dropWhile isPySpace).reverse.dropWhile isPySpace).reverse

/-- Does `pat` start the list `s`? -/
def leadsWith : List Char → List Char → Bool
  | [], _ => true
  | _ :: _, [] => false
  | a :: as, b :: bs => a == b && leadsWith as bs

/-- Python `pat in s` on characters: substring containment. -/
def containsSub (pat : List Char) : List Char → Bool
  | [] => leadsWith pat []
  | c :: rest => leadsWith pat (c :: rest) || containsSub pat rest

/-- Split a character list at every position satisfying `p`, keeping empty
segments, as Python `str.split(sep)` does. -/
def splitWhen (p : Char → Bool) : List Char → List (List Char)
  | [] => [[]]
  | c :: rest =>
    if p c then [] :: splitWhen p rest
    else
      match splitWhen p rest with
      | [] => [[c]]
      | t :: ts => (c :: t) :: ts

/-- Python `line.split('=')`. -/
def splitOnChar (c : Char) (l : List Char) : List (List Char) :=
  splitWhen (fun d => d == c) l

/-- Python `s.split()` with no argument: split on whitespace runs, dropping
empty tokens. -/
def pySplitWs (l : List Char) : List (List Char) :=
  (splitWhen isPySpace l).filter (fun t => t ≠ [])

/-- Value of a decimal digit character. -/
def digitVal (c : Char) : Nat := c.toNat - 48

/-- Are all characters decimal digits? (True on the empty list.) -/
def allDigits (l : List Char) : Bool := l.all (fun c => c.isDigit)

/-- The natural number denoted by a list of decimal digits. -/
def natOfDigits (l : List Char) : Nat :=
  l.foldl (fun n c => 10 * n + digitVal c) 0

/-- Strip an optional leading sign, returning the sign as `1` or `-1`. -/
def splitSign : List Char → Int × List Char
  | '+' :: r => (1, r)
  | '-' :: r => (-1, r)
  | l => (1, l)

/-- Split a list at the first character satisfying `p`: the part before it and,
when such a character exists, the part after it. -/
def breakAt (p : Char → Bool) : List Char → List Char × Option (List Char)
  | [] => ([], none)
  | c :: r =>
    if p c then ([], some r)
    else
      match breakAt p r with
      | (a, b) => (c :: a, b)

/-- Parse the unsigned mantissa of a Python float literal: digits with an
optional decimal point, at least one digit overall.  Returns the digits read as
an integer together with the number of fractional digits, so the value is
`m / 10 ^ f`. -/
def parseMantissa (l : List Char) : Option (Int × Nat) :=
  match breakAt (fun c => c == '.') l with
  | (ip, none) =>
    if ip ≠ [] ∧ allDigits ip then some (((natOfDigits ip : Nat) : Int), 0)
    else none
  | (ip, some fp) =>
    if (ip ≠ [] ∨ fp ≠ []) ∧ allDigits ip ∧ allDigits fp then
      some (((natOfDigits (ip ++ fp) : Nat) : Int), fp.length)
    else none

/-- Parse the exponent part of a Python float literal (after `e`/`E`):
an optionally signed digit string. -/
def parseExpPart (l : List Char) : Option Int :=
  match splitSign l with
  | (sg, d) =>
    if d ≠ [] ∧ allDigits d then some (sg * ((natOfDigits d : Nat) : Int))
    else none

/-- The rational `m / 10 ^ f * 10 ^ e`, computed with integer arithmetic and a
single `Rat.divInt` so that it evaluates inside the kernel. -/
def ratScale (m : Int) (f : Nat) (e : Int) : ℚ :=
  if (f : Int) ≤ e then Rat.divInt (m * ((10 ^ (e - (f : Int)).toNat : Nat) : Int)) 1
  else Rat.divInt m (((10 ^ (((f : Int) - e).toNat) : Nat) : Int))

/-- Python `float(token)` on a whitespace-free token, modelled for decimal
literals with optional sign, decimal point and exponent (`0.45`, `-1e-3`,
`12.`, `.5`); the special forms `inf`/`nan`/underscore separators are not
modelled (they never arise in the material under study).  Returns `none` where
`float` raises `ValueError`, and the exact rational value otherwise. -/
def parseFloatChars (l : List Char) : Option ℚ :=
  match splitSign l with
  | (sg, rest) =>
    match breakAt (fun c => c == 'e' || c == 'E') rest with
    | (mant, none) =>
      (parseMantissa mant).map (fun mf => ratScale (sg * mf.1) mf.2 0)
    | (mant, some ex) =>
      match parseMantissa mant, parseExpPart ex with
      | some mf, some e => some (ratScale (sg * mf.1) mf.2 e)
      | _, _ => none

/-- The substring looked for on the mean-extinction line (source line 87). -/
def avMarker : List Char := "<Av> =".toList

/-- The substring looked for on the standard-deviation line (source line 92). -/
def stdevMarker : List Char := "Standard deviation of extinction values =".toList

/-- `float(line.split('=')[1].split()[0])` with `IndexError`/`ValueError`
mapped to `none` (source lines 88-96): take the segment between the first and
second `=` of the line, then its first whitespace-delimited token, and parse it
as a float. -/
def extractValue (line : List Char) : Option ℚ :=
  match (splitOnChar '=' line)[1]? with
  | none => none
  | some seg =>
    match pySplitWs seg with
    | [] => none
    | tok :: _ => parseFloatChars tok

/-- The two mutable locals of the scanning loop, `mean_av` and `stdev_av`,
both initialised to `None` (source lines 82-83). -/
structure ParseState where
  mean_av : Option ℚ
  stdev_av : Option ℚ
deriving DecidableEq

/-- One iteration of the scanning loop (source lines 85-96): strip the line;
if it contains the `<Av> =` marker, try to extract a value into `mean_av`
(keeping the old value on failure); otherwise, if it contains the
standard-deviation marker, do the same into `stdev_av`. -/
def scanLine (st : ParseState) (raw : String) : ParseState :=
  let line := pyStrip raw.toList
  if containsSub avMarker line then
    match extractValue line with
    | some v => { st with mean_av := some v }
    | none => st
  else if containsSub stdevMarker line then
    match extractValue line with
    | some v => { st with stdev_av := some v }
    | none => st
  else st

/-- The full scanning loop over the visible-text lines of the response body,
starting from `mean_av = stdev_av = None`. -/
def parseResponse (lines : List String) : ParseState :=
  lines.foldl scanLine ⟨none, none⟩

/-- The final step (source lines 98-101): return the pair when both values were
found, otherwise raise the no-stars error. -/
def finishParse (st : ParseState) : Except Err (ℚ × ℚ) :=
  match st.mean_av, st.stdev_av with
  | some m, some s => .ok (m, s)
  | _, _ => .error .noStarsFound

/-- Outcome of the HTTP GET: a successful (2xx) response whose visible text has
the given lines, or a transport failure / non-success status
(`raise_for_status`, source lines 77-78). -/
inductive HttpResult where
  | success (textLines : List String)
  | failure

/-- `get_extinction` instrumented with its outbound-request trace: validation,
then exactly one GET answered by the `respond` oracle, then response parsing.
The first component lists the HTTP requests issued during the call. -/
def runQuery (galaxy : String) (ra dec : PyVal) (radius : ℚ) (teff : String)
    (respond : Request → HttpResult) : List Request × Except Err (ℚ × ℚ) :=
  match validate galaxy ra dec radius teff with
  | .error e => ([], .error e)
  | .ok req =>
    match respond req with
    | .failure => ([req], .error .requestFailed)
    | .success lines => ([req], finishParse (parseResponse lines))

/-- The observable result of `get_extinction(galaxy, ra, dec, radius, teff)`
when the network behaves as `respond`. -/
def get_extinction (galaxy : String) (ra dec : PyVal) (radius : ℚ) (teff : String)
    (respond : Request → HttpResult) : Except Err (ℚ × ℚ) :=
  (runQuery galaxy ra dec radius teff respond).2

/-- The LMC footprint of the specification's bounds table:
RA in [4.48, 6.27] hours, Dec in [-72.5, -65.2] degrees. -/
def inLMCBox (ra dec : ℚ) : Prop :=
  lmcRaLo ≤ ra ∧ ra ≤ lmcRaHi ∧ lmcDecLo ≤ dec ∧ dec ≤ lmcDecHi

instance (ra dec : ℚ) : Decidable (inLMCBox ra dec) :=
  inferInstanceAs (Decidable (_ ∧ _ ∧ _ ∧ _))

/-- The SMC footprint of the specification's bounds table:
RA in [0.375, 1.375] hours, Dec in [-74.9, -70.4] degrees. -/
def inSMCBox (ra dec : ℚ) : Prop :=
  smcRaLo ≤ ra ∧ ra ≤ smcRaHi ∧ smcDecLo ≤ dec ∧ dec ≤ smcDecHi

instance (ra dec : ℚ) : Decidable (inSMCBox ra dec) :=
  inferInstanceAs (Decidable (_ ∧ _ ∧ _ ∧ _))

/-- A recognized galaxy together with in-footprint coordinates. -/
def coordsOK (galaxy : String) (ra dec : ℚ) : Prop :=
  (pyUpper galaxy = "LMC" ∧ inLMCBox ra dec) ∨ (pyUpper galaxy = "SMC" ∧ inSMCBox ra dec)

instance (galaxy : String) (ra dec : ℚ) : Decidable (coordsOK galaxy ra dec) :=
  inferInstanceAs (Decidable (_ ∨ _))

/-- The mean-extinction candidate contributed by a single response line: the
value the loop body would assign to `mean_av` on that line, if any. -/
def meanCand (raw : String) : Option ℚ :=
  let line := pyStrip raw.toList
  if containsSub avMarker line then extractValue line else none

/-- The standard-deviation candidate contributed by a single response line: the
value the loop body would assign to `stdev_av` on that line, if any (a line
containing the `<Av> =` marker is taken by the first branch and contributes
nothing here, matching the `elif`). -/
def stdevCand (raw : String) : Option ℚ :=
  let line := pyStrip raw.toList
  if containsSub avMarker line then none
  else if containsSub stdevMarker line then extractValue line else none

/-- All successfully parsed mean-extinction values, in line order. -/
def meanCandidates (lines : List String) : List ℚ :=
  lines.filterMap meanCand

/-- All successfully parsed standard-deviation values, in line order. -/
def stdevCandidates (lines : List String) : List ℚ :=
  lines.filterMap stdevCand

/-- The degree-scale threshold of the unit-mismatch check for the selected
galaxy: 7.0 hours for the LMC, 6.0 for the SMC. -/
def raUnitLimit (galaxy : String) : ℚ :=
  if pyUpper galaxy = "LMC" then 7 else 6

/-- Lower RA bound of the selected galaxy. -/
def raLoOf (galaxy : String) : ℚ :=
  if pyUpper galaxy = "LMC" then lmcRaLo else smcRaLo

/-- Upper RA bound of the selected galaxy. -/
def raHiOf (galaxy : String) : ℚ :=
  if pyUpper galaxy = "LMC" then lmcRaHi else smcRaHi

/-- Lower Dec bound of the selected galaxy. -/
def decLoOf (galaxy : String) : ℚ :=
  if pyUpper galaxy = "LMC" then lmcDecLo else smcDecLo

/-- Upper Dec bound of the selected galaxy. -/
def decHiOf (galaxy : String) : ℚ :=
  if pyUpper galaxy = "LMC" then lmcDecHi else smcDecHi

/-- The claimed fixed order of the validation checks, written as one linear
chain: ra numeric, dec numeric, galaxy recognized, ra unit mismatch, ra bounds,
dec bounds, radius range, teff membership.  Returns the error of the earliest
violated check, or `none` when validation passes.  This is the specification
side of the refinement claim; `validate` is the code side. -/
def orderedError (galaxy : String) (ra dec : PyVal) (radius : ℚ) (teff : String) :
    Option Err :=
  match ra, dec with
  | .nonNum _, _ => some .invalidCoordinateType
  | .num _, .nonNum _ => some .invalidCoordinateType
  | .num raV, .num decV =>
    if ¬ (pyUpper galaxy = "LMC" ∨ pyUpper galaxy = "SMC") then some .invalidGalaxy
    else if raV > raUnitLimit galaxy then some .coordinateUnitMismatch
    else if ¬ (raLoOf galaxy ≤ raV ∧ raV ≤ raHiOf galaxy) then some .coordinateOutOfRange
    else if ¬ (decLoOf galaxy ≤ decV ∧ decV ≤ decHiOf galaxy) then some .coordinateOutOfRange
    else if ¬ (0 < radius ∧ radius ≤ 12) then some .invalidRadius
    else if ¬ (teff = "all" ∨ teff = "cool" ∨ teff = "hot") then some .invalidTeff
    else none

/-- Overwriting update of an optional cell: a new candidate replaces the old
content, no candidate keeps it. -/
def overwrite (old cand : Option ℚ) : Option ℚ :=
  match cand with
  | some v => some v
  | none => old

/-- The last element of a candidate list, or a default when there is none:
`lastD l d` is the content of a cell initially holding `d` after the
assignments `l` have run in order. -/
def lastD (l : List ℚ) (d : Option ℚ) : Option ℚ :=
  l.foldl (fun _ v => some v) d

theorem scanLine_mean (st : ParseState) (raw : String) :
    (scanLine st raw).mean_av = overwrite st.mean_av (meanCand raw) := by
  unfold scanLine meanCand overwrite
  simp only [String.toList]
  by_cases h1 : containsSub avMarker (pyStrip raw.data)
  · simp only [h1, if_true]
    cases hE : extractValue (pyStrip raw.data) <;> simp
  · simp only [h1, if_false, Bool.false_eq_true]
    by_cases h2 : containsSub stdevMarker (pyStrip raw.data)
    · simp only [h2, if_true]
      cases hE : extractValue (pyStrip raw.data) <;> simp
    · simp [h1, h2]

theorem scanLine_stdev (st : ParseState) (raw : String) :
    (scanLine st raw).stdev_av = overwrite st.stdev_av (stdevCand raw) := by
  unfold scanLine stdevCand overwrite
  simp only [String.toList]
  by_cases h1 : containsSub avMarker (pyStrip raw.data)
  · simp only [h1, if_true]
    cases hE : extractValue (pyStrip raw.data) <;> simp
  · simp only [h1, if_false, Bool.false_eq_true]
    by_cases h2 : containsSub stdevMarker (pyStrip raw.data)
    · simp only [h2, if_true]
      cases hE : extractValue (pyStrip raw.data) <;> simp
    · simp [h1, h2]

theorem foldl_scan_mean :
    ∀ (lines : List String) (st : ParseState),
      (lines.foldl scanLine st).mean_av = lastD (meanCandidates lines) st.mean_av
  | [], st => rfl
  | raw :: rest, st => by
    have ih := foldl_scan_mean rest (scanLine st raw)
    simp only [List.foldl_cons] at ih ⊢
    rw [ih, scanLine_mean]
    unfold meanCandidates
    rw [List.filterMap_cons]
    cases h : meanCand raw <;> simp [overwrite, lastD]

theorem foldl_scan_stdev :
    ∀ (lines : List String) (st : ParseState),
      (lines.foldl scanLine st).stdev_av = lastD (stdevCandidates lines) st.stdev_av
  | [], st => rfl
  | raw :: rest, st => by
    have ih := foldl_scan_stdev rest (scanLine st raw)
    simp only [List.foldl_cons] at ih ⊢
    rw [ih, scanLine_stdev]
    unfold stdevCandidates
    rw [List.filterMap_cons]
    cases h : stdevCand raw <;> simp [overwrite, lastD]

theorem lastD_eq_getLast :
    ∀ (l : List ℚ) (d : Option ℚ),
      lastD l d = match l.getLast? with | some v => some v | none => d
  | [], _ => rfl
  | [_], _ => rfl
  | v :: w :: rest, d => by
    have ih := lastD_eq_getLast (w :: rest) (some v)
    have hcons : lastD (v :: w :: rest) d = lastD (w :: rest) (some v) := rfl
    obtain ⟨x, hx⟩ : ∃ x, (w :: rest).getLast? = some x :=
      ⟨_, List.getLast?_eq_getLast_of_ne_nil (List.cons_ne_nil _ _)⟩
    rw [hcons, ih, hx, List.getLast?_cons_cons, hx]

theorem parseResponse_mean (lines : List String) :
    (parseResponse lines).mean_av = (meanCandidates lines).getLast? := by
  unfold parseResponse
  rw [foldl_scan_mean, lastD_eq_getLast]
  cases (meanCandidates lines).getLast? <;> rfl

theorem parseResponse_stdev (lines : List String) :
    (parseResponse lines).stdev_av = (stdevCandidates lines).getLast? := by
  unfold parseResponse
  rw [foldl_scan_stdev, lastD_eq_getLast]
  cases (stdevCandidates lines).getLast? <;> rfl

theorem getLast?_of_all_eq {l : List ℚ} {a : ℚ}
    (hne : l ≠ []) (h : ∀ x ∈ l, x = a) : l.getLast? = some a := by
  rw [List.getLast?_eq_getLast_of_ne_nil hne]
  exact congrArg some (h _ (List.getLast_mem hne))

theorem finishParse_error {st : ParseState} {e : Err}
    (h : finishParse st = .error e) : e = .noStarsFound := by
  unfold finishParse at h
  cases hm : st.mean_av <;> cases hs : st.stdev_av <;>
    rw [hm, hs] at h <;> simp_all

theorem runQuery_of_validate_error {galaxy : String} {ra dec : PyVal} {radius : ℚ}
    {teff : String} {e : Err} (respond : Request → HttpResult)
    (h : validate galaxy ra dec radius teff = .error e) :
    runQuery galaxy ra dec radius teff respond = ([], .error e) := by
  unfold runQuery
  rw [h]

theorem get_extinction_error_origin {galaxy : String} {ra dec : PyVal} {radius : ℚ}
    {teff : String} {respond : Request → HttpResult} {e : Err}
    (h : get_extinction galaxy ra dec radius teff respond = .error e) :
    validate galaxy ra dec radius teff = .error e ∨
      e = .requestFailed ∨ e = .noStarsFound := by
  unfold get_extinction at h
  cases hv : validate galaxy ra dec radius teff with
  | error e' =>
    rw [runQuery_of_validate_error respond hv] at h
    simp at h
    subst h
    exact Or.inl rfl
  | ok req =>
    simp only [runQuery, hv] at h
    cases hr : respond req with
    | failure =>
      simp only [hr] at h
      simp at h
      exact Or.inr (Or.inl h.symm)
    | success lines =>
      simp only [hr] at h
      exact Or.inr (Or.inr (finishParse_error h))

theorem validate_eq_orderedError (galaxy : String) (ra dec : PyVal) (radius : ℚ)
    (teff : String) (e : Err) :
    validate galaxy ra dec radius teff = .error e ↔
      orderedError galaxy ra dec radius teff = some e := by
  cases ra with
  | nonNum r => simp [validate, orderedError]
  | num raV =>
    cases dec with
    | nonNum r => simp [validate, orderedError]
    | num decV =>
      by_cases hL : pyUpper galaxy = "LMC"
      · simp only [validate, orderedError, checkRest, hL, raUnitLimit, raLoOf, raHiOf,
          decLoOf, decHiOf, if_true, true_or, not_true, ite_true, ite_false,
          Bool.false_eq_true]
        split_ifs <;> simp_all
      · by_cases hS : pyUpper galaxy = "SMC"
        · simp only [validate, orderedError, checkRest, hL, hS, raUnitLimit, raLoOf,
            raHiOf, decLoOf, decHiOf, if_true, if_false, or_true, false_or, not_true,
            ite_true, ite_false, Bool.false_eq_true]
          split_ifs <;> simp_all
        · simp [validate, orderedError, hL, hS]

theorem validate_ok_shape {galaxy : String} {ra dec : PyVal} {radius : ℚ}
    {teff : String} {req : Request}
    (h : validate galaxy ra dec radius teff = .ok req) :
    ra = .num req.ra ∧ dec = .num req.dec ∧ req.searchrad = radius ∧ req.teff = teff ∧
      ((pyUpper galaxy = "LMC" ∧ req.base_url = lmcURL) ∨
        (pyUpper galaxy = "SMC" ∧ req.base_url = smcURL)) := by
  cases ra with
  | nonNum r => simp [validate] at h
  | num raV =>
    cases dec with
    | nonNum r => simp [validate] at h
    | num decV =>
      by_cases hL : pyUpper galaxy = "LMC"
      · simp only [validate, checkRest] at h
        rw [if_pos hL] at h
        split_ifs at h
        all_goals injection h with h'
        subst h'
        simp [hL]
      · by_cases hS : pyUpper galaxy = "SMC"
        · simp only [validate, checkRest] at h
          rw [if_neg hL, if_pos hS] at h
          split_ifs at h
          all_goals injection h with h'
          subst h'
          simp [hS]
        · simp [validate, hL, hS] at h

theorem runQuery_trace_ok {galaxy : String} {ra dec : PyVal} {radius : ℚ}
    {teff : String} {req : Request} (respond : Request → HttpResult)
    (h : validate galaxy ra dec radius teff = .ok req) :
    (runQuery galaxy ra dec radius teff respond).1 = [req] := by
  simp only [runQuery, h]
  cases hr : respond req <;> simp [hr]

theorem runQuery_of_success {galaxy : String} {ra dec : PyVal} {radius : ℚ}
    {teff : String} {req : Request} {respond : Request → HttpResult}
    {lines : List String}
    (h : validate galaxy ra dec radius teff = .ok req)
    (hr : respond req = .success lines) :
    get_extinction galaxy ra dec radius teff respond =
      finishParse (parseResponse lines) := by
  simp only [get_extinction, runQuery, h, hr]

theorem lmcRaHi_le_seven : lmcRaHi ≤ (7 : ℚ) := by decide

theorem smcRaHi_le_six : smcRaHi ≤ (6 : ℚ) := by decide

theorem checkRest_ne_outOfRange {base_url : String} {raV decV radius : ℚ} {teff : String} :
    checkRest base_url raV decV radius teff ≠ .error .coordinateOutOfRange := by
  unfold checkRest
  split_ifs <;> simp

theorem validate_lmc_outOfRange {galaxy : String} {ra dec radius : ℚ} {teff : String}
    (hL : pyUpper galaxy = "LMC") (hra : ra ≤ 7) :
    validate galaxy (.num ra) (.num dec) radius teff = .error .coordinateOutOfRange ↔
      ¬ inLMCBox ra dec := by
  simp only [validate]
  rw [if_pos hL, if_neg (not_lt.mpr hra)]
  unfold inLMCBox
  by_cases h1 : lmcRaLo ≤ ra ∧ ra ≤ lmcRaHi
  · rw [if_neg (not_not_intro h1)]
    by_cases h2 : lmcDecLo ≤ dec ∧ dec ≤ lmcDecHi
    · rw [if_neg (not_not_intro h2)]
      constructor
      · intro hc
        exact absurd hc checkRest_ne_outOfRange
      · intro hn
        exact absurd ⟨h1.1, h1.2, h2.1, h2.2⟩ hn
    · rw [if_pos h2]
      constructor
      · intro _ hbox
        exact h2 ⟨hbox.2.2.1, hbox.2.2.2⟩
      · intro _
        rfl
  · rw [if_pos h1]
    constructor
    · intro _ hbox
      exact h1 ⟨hbox.1, hbox.2.1⟩
    · intro _
      rfl

theorem validate_smc_outOfRange {galaxy : String} {ra dec radius : ℚ} {teff : String}
    (hS : pyUpper galaxy = "SMC") (hra : ra ≤ 6) :
    validate galaxy (.num ra) (.num dec) radius teff = .error .coordinateOutOfRange ↔
      ¬ inSMCBox ra dec := by
  have hL : ¬ pyUpper galaxy = "LMC" := by rw [hS]; decide
  simp only [validate]
  rw [if_neg hL, if_pos hS, if_neg (not_lt.mpr hra)]
  unfold inSMCBox
  by_cases h1 : smcRaLo ≤ ra ∧ ra ≤ smcRaHi
  · rw [if_neg (not_not_intro h1)]
    by_cases h2 : smcDecLo ≤ dec ∧ dec ≤ smcDecHi
    · rw [if_neg (not_not_intro h2)]
      constructor
      · intro hc
        exact absurd hc checkRest_ne_outOfRange
      · intro hn
        exact absurd ⟨h1.1, h1.2, h2.1, h2.2⟩ hn
    · rw [if_pos h2]
      constructor
      · intro _ hbox
        exact h2 ⟨hbox.2.2.1, hbox.2.2.2⟩
      · intro _
        rfl
  · rw [if_pos h1]
    constructor
    · intro _ hbox
      exact h1 ⟨hbox.1, hbox.2.1⟩
    · intro _
      rfl

theorem validate_invalidRadius {galaxy : String} {ra dec radius : ℚ} {teff : String}
    (hok : coordsOK galaxy ra dec) :
    validate galaxy (.num ra) (.num dec) radius teff = .error .invalidRadius ↔
      ¬ (0 < radius ∧ radius ≤ 12) := by
  have hrest : ∀ u : String,
      (checkRest u ra dec radius teff = .error .invalidRadius ↔
        ¬ (0 < radius ∧ radius ≤ 12)) := by
    intro u
    unfold checkRest
    by_cases hrad : 0 < radius ∧ radius ≤ 12
    · rw [if_neg (not_not_intro hrad)]
      constructor
      · intro hc
        exfalso
        split_ifs at hc
        simp_all
      · intro hn
        exact absurd hrad hn
    · rw [if_pos hrad]
      simp [hrad]
  rcases hok with ⟨hL, b1, b2, b3, b4⟩ | ⟨hS, b1, b2, b3, b4⟩
  · simp only [validate]
    rw [if_pos hL, if_neg (not_lt.mpr (le_trans b2 lmcRaHi_le_seven)),
      if_neg (not_not_intro ⟨b1, b2⟩), if_neg (not_not_intro ⟨b3, b4⟩)]
    exact hrest lmcURL
  · have hL : ¬ pyUpper galaxy = "LMC" := by rw [hS]; decide
    simp only [validate]
    rw [if_neg hL, if_pos hS, if_neg (not_lt.mpr (le_trans b2 smcRaHi_le_six)),
      if_neg (not_not_intro ⟨b1, b2⟩), if_neg (not_not_intro ⟨b3, b4⟩)]
    exact hrest smcURL

theorem splitWhen_ne_nil (p : Char → Bool) : ∀ l : List Char, splitWhen p l ≠ []
  | [] => by simp [splitWhen]
  | c :: rest => by
    unfold splitWhen
    by_cases h : p c
    · simp [h]
    · simp only [h, if_false, Bool.false_eq_true]
      cases hs : splitWhen p rest <;> simp

theorem splitWhen_head (p : Char → Bool) :
    ∀ l : List Char, (splitWhen p l).head? = some (l.takeWhile (fun c => !(p c)))
  | [] => rfl
  | c :: rest => by
    unfold splitWhen
    by_cases h : p c
    · simp [h, List.takeWhile_cons, h]
    · simp only [h, if_false, Bool.false_eq_true]
      have ih := splitWhen_head p rest
      cases hs : splitWhen p rest with
      | nil => exact absurd hs (splitWhen_ne_nil p rest)
      | cons t ts =>
        rw [hs] at ih
        simp only [List.head?_cons, Option.some.injEq] at ih
        simp [List.takeWhile_cons, h, ih]

theorem splitWhen_append {p : Char → Bool} {sep : Char} (hsep : p sep = true) :
    ∀ (pre post : List Char), (∀ x ∈ pre, p x = false) →
      splitWhen p (pre ++ sep :: post) = pre :: splitWhen p post
  | [], post, _ => by simp [splitWhen, hsep]
  | c :: pre', post, h => by
    have hc : p c = false := h c (List.mem_cons_self c pre')
    have ih := splitWhen_append hsep pre' post (fun x hx => h x (List.mem_cons_of_mem _ hx))
    simp only [List.cons_append, splitWhen, hc, if_false, Bool.false_eq_true]
    rw [show pre'.append (sep :: post) = pre' ++ sep :: post from rfl, ih]

/-- C1, counterexample to the claim as stated: a response body that contains
the line `<Av> = 0.45 (something)` and the line
`Standard deviation of extinction values = 0.12 mag` but also a later line
bearing the `<Av> =` marker with a different parseable value.  The call (valid
inputs, successful request) returns (0.99, 0.12), not (0.45, 0.12): the scan
does not stop at the first match, and the later assignment overwrites. -/
theorem c1_counterexample :
    get_extinction "LMC" (.num (Rat.divInt 52 10)) (.num (Rat.divInt (-695) 10)) 1 "all"
        (fun _ => .success ["<Av> = 0.45 (something)",
          "Standard deviation of extinction values = 0.12 mag",
          "<Av> = 0.99 x"]) =
      .ok (Rat.divInt 99 100, Rat.divInt 12 100) ∧
    ((Rat.divInt 99 100, Rat.divInt 12 100) : ℚ × ℚ) ≠
      (Rat.divInt 45 100, Rat.divInt 12 100) := by
  decide

/-- C1 (amended): for every response body whose extracted text contains the
line `<Av> = 0.45 (something)` and the line
`Standard deviation of extinction values = 0.12 mag`, and in which no other
line contains either marker substring, get_extinction (with valid inputs and a
successful request) returns the pair (0.45, 0.12), each value being the first
whitespace-delimited token after the `=` of its marker line parsed as a real
number. -/
theorem c1_mocked_body_amended
    (galaxy : String) (ra dec : PyVal) (radius : ℚ) (teff : String)
    (respond : Request → HttpResult) (req : Request) (lines : List String)
    (hv : validate galaxy ra dec radius teff = .ok req)
    (hr : respond req = .success lines)
    (hA : "<Av> = 0.45 (something)" ∈ lines)
    (hS : "Standard deviation of extinction values = 0.12 mag" ∈ lines)
    (hOnly : ∀ l ∈ lines, l = "<Av> = 0.45 (something)" ∨
        l = "Standard deviation of extinction values = 0.12 mag" ∨
        (containsSub avMarker (pyStrip l.data) = false ∧
          containsSub stdevMarker (pyStrip l.data) = false)) :
    get_extinction galaxy ra dec radius teff respond =
      .ok (Rat.divInt 45 100, Rat.divInt 12 100) := by
  have hmeanA : meanCand "<Av> = 0.45 (something)" = some (Rat.divInt 45 100) := by decide
  have hmeanS : meanCand "Standard deviation of extinction values = 0.12 mag" = none := by
    decide
  have hstA : stdevCand "<Av> = 0.45 (something)" = none := by decide
  have hstS : stdevCand "Standard deviation of extinction values = 0.12 mag" =
      some (Rat.divInt 12 100) := by decide
  have hmNone : ∀ l : String, containsSub avMarker (pyStrip l.data) = false →
      meanCand l = none := by
    intro l hl
    unfold meanCand
    simp [String.toList, hl]
  have hsNone : ∀ l : String, containsSub avMarker (pyStrip l.data) = false →
      containsSub stdevMarker (pyStrip l.data) = false → stdevCand l = none := by
    intro l hl1 hl2
    unfold stdevCand
    simp [String.toList, hl1, hl2]
  have hm : (meanCandidates lines).getLast? = some (Rat.divInt 45 100) := by
    apply getLast?_of_all_eq
    · intro hnil
      have hmem : Rat.divInt 45 100 ∈ meanCandidates lines :=
        List.mem_filterMap.mpr ⟨_, hA, hmeanA⟩
      rw [hnil] at hmem
      exact (List.not_mem_nil _) hmem
    · intro x hx
      obtain ⟨l, hl, hfl⟩ := List.mem_filterMap.mp hx
      rcases hOnly l hl with rfl | rfl | ⟨hn1, hn2⟩
      · rw [hmeanA] at hfl
        exact (Option.some_inj.mp hfl).symm
      · rw [hmeanS] at hfl
        simp at hfl
      · rw [hmNone l hn1] at hfl
        simp at hfl
  have hs : (stdevCandidates lines).getLast? = some (Rat.divInt 12 100) := by
    apply getLast?_of_all_eq
    · intro hnil
      have hmem : Rat.divInt 12 100 ∈ stdevCandidates lines :=
        List.mem_filterMap.mpr ⟨_, hS, hstS⟩
      rw [hnil] at hmem
      exact (List.not_mem_nil _) hmem
    · intro x hx
      obtain ⟨l, hl, hfl⟩ := List.mem_filterMap.mp hx
      rcases hOnly l hl with rfl | rfl | ⟨hn1, hn2⟩
      · rw [hstA] at hfl
        simp at hfl
      · rw [hstS] at hfl
        exact (Option.some_inj.mp hfl).symm
      · rw [hsNone l hn1 hn2] at hfl
        simp at hfl
  rw [runQuery_of_success hv hr]
  have h1 := parseResponse_mean lines
  have h2 := parseResponse_stdev lines
  rw [hm] at h1
  rw [hs] at h2
  simp [finishParse, h1, h2]

/-- C1 amended, witness: the two-line mocked body of the specification's test
yields exactly (0.45, 0.12). -/
theorem c1_mocked_body_amended_witness :
    get_extinction "LMC" (.num (Rat.divInt 52 10)) (.num (Rat.divInt (-695) 10)) 1 "all"
        (fun _ => .success ["<Av> = 0.45 (something)",
          "Standard deviation of extinction values = 0.12 mag"]) =
      .ok (Rat.divInt 45 100, Rat.divInt 12 100) :=
  c1_mocked_body_amended "LMC" (.num (Rat.divInt 52 10)) (.num (Rat.divInt (-695) 10))
    1 "all"
    (fun _ => .success ["<Av> = 0.45 (something)",
      "Standard deviation of extinction values = 0.12 mag"])
    ⟨lmcURL, Rat.divInt 52 10, Rat.divInt (-695) 10, 1, "all"⟩
    ["<Av> = 0.45 (something)", "Standard deviation of extinction values = 0.12 mag"]
    (by decide) rfl (by decide) (by decide) (by decide)

/-- C2: on a successful request, get_extinction returns a pair exactly when
both the mean and the standard deviation were extracted from the response
lines, and the returned components are those extracted values; if either is
missing the call fails with NoStarsFound — no partial result is ever
returned. -/
theorem c2_no_partial_result
    (galaxy : String) (ra dec : PyVal) (radius : ℚ) (teff : String)
    (respond : Request → HttpResult) (req : Request) (lines : List String)
    (hv : validate galaxy ra dec radius teff = .ok req)
    (hr : respond req = .success lines) :
    (∃ m s, get_extinction galaxy ra dec radius teff respond = .ok (m, s) ∧
        (parseResponse lines).mean_av = some m ∧
        (parseResponse lines).stdev_av = some s) ∨
      (get_extinction galaxy ra dec radius teff respond = .error .noStarsFound ∧
        ((parseResponse lines).mean_av = none ∨
          (parseResponse lines).stdev_av = none)) := by
  rw [runQuery_of_success hv hr]
  rcases hm : (parseResponse lines).mean_av with _ | m <;>
    rcases hs : (parseResponse lines).stdev_av with _ | s
  · exact Or.inr ⟨by simp [finishParse, hm, hs], Or.inl rfl⟩
  · exact Or.inr ⟨by simp [finishParse, hm, hs], Or.inl rfl⟩
  · exact Or.inr ⟨by simp [finishParse, hm, hs], Or.inr rfl⟩
  · exact Or.inl ⟨m, s, by simp [finishParse, hm, hs], rfl, rfl⟩

/-- C2, witness: a successful request whose body has neither marker line fails
with NoStarsFound. -/
theorem c2_no_partial_result_witness :
    (∃ m s, get_extinction "LMC" (.num (Rat.divInt 52 10)) (.num (Rat.divInt (-695) 10))
          1 "all" (fun _ => HttpResult.success []) = .ok (m, s) ∧
        (parseResponse []).mean_av = some m ∧ (parseResponse []).stdev_av = some s) ∨
      (get_extinction "LMC" (.num (Rat.divInt 52 10)) (.num (Rat.divInt (-695) 10))
          1 "all" (fun _ => HttpResult.success []) = .error .noStarsFound ∧
        ((parseResponse []).mean_av = none ∨ (parseResponse []).stdev_av = none)) :=
  c2_no_partial_result "LMC" (.num (Rat.divInt 52 10)) (.num (Rat.divInt (-695) 10))
    1 "all" (fun _ => HttpResult.success [])
    ⟨lmcURL, Rat.divInt 52 10, Rat.divInt (-695) 10, 1, "all"⟩ [] (by decide) rfl

/-- C3, counterexample to first-match-wins: two lines bear the `<Av> =` marker
with distinct parseable values 0.45 (first) and 0.99 (second); the call
returns 0.99, the value of the second line, not the first. -/
theorem c3_counterexample :
    get_extinction "LMC" (.num (Rat.divInt 52 10)) (.num (Rat.divInt (-695) 10)) 1 "all"
        (fun _ => .success ["<Av> = 0.45 a", "<Av> = 0.99 a",
          "Standard deviation of extinction values = 0.12 mag"]) =
      .ok (Rat.divInt 99 100, Rat.divInt 12 100) ∧
    (Rat.divInt 45 100 : ℚ) ≠ Rat.divInt 99 100 := by
  decide

/-- C3 (amended): when several lines bear the same marker, the value returned
by get_extinction for that marker is the one from the LAST line whose token
parses successfully (last-successfully-parsed-match-wins): whatever the last
elements of the candidate lists are, they are the returned pair. -/
theorem c3_last_match_wins
    (galaxy : String) (ra dec : PyVal) (radius : ℚ) (teff : String)
    (respond : Request → HttpResult) (req : Request) (lines : List String) (m s : ℚ)
    (hv : validate galaxy ra dec radius teff = .ok req)
    (hr : respond req = .success lines)
    (hm : (meanCandidates lines).getLast? = some m)
    (hs : (stdevCandidates lines).getLast? = some s) :
    get_extinction galaxy ra dec radius teff respond = .ok (m, s) := by
  rw [runQuery_of_success hv hr]
  have h1 := parseResponse_mean lines
  have h2 := parseResponse_stdev lines
  rw [hm] at h1
  rw [hs] at h2
  simp [finishParse, h1, h2]

/-- C3 amended, witness: with duplicate `<Av> =` lines carrying 0.45 then
0.99, the returned mean is the last candidate, 0.99. -/
theorem c3_last_match_wins_witness :
    get_extinction "LMC" (.num (Rat.divInt 52 10)) (.num (Rat.divInt (-695) 10)) 1 "all"
        (fun _ => .success ["<Av> = 0.45 a", "<Av> = 0.99 a",
          "Standard deviation of extinction values = 0.12 mag"]) =
      .ok (Rat.divInt 99 100, Rat.divInt 12 100) :=
  c3_last_match_wins "LMC" (.num (Rat.divInt 52 10)) (.num (Rat.divInt (-695) 10)) 1 "all"
    (fun _ => .success ["<Av> = 0.45 a", "<Av> = 0.99 a",
      "Standard deviation of extinction values = 0.12 mag"])
    ⟨lmcURL, Rat.divInt 52 10, Rat.divInt (-695) 10, 1, "all"⟩
    ["<Av> = 0.45 a", "<Av> = 0.99 a",
      "Standard deviation of extinction values = 0.12 mag"]
    (Rat.divInt 99 100) (Rat.divInt 12 100)
    (by decide) rfl (by decide) (by decide)

/-- C4, counterexample to the claim as stated: with an unrecognized galaxy
string AND a non-numeric ra, the call fails with the coordinate-type error, not
InvalidGalaxy, because the ra/dec type checks run before the galaxy check; so
the claim does not hold for all values of the other arguments. -/
theorem c4_counterexample :
    get_extinction "ANDROMEDA" (.nonNum "04:30:00") (.num (Rat.divInt (-695) 10)) 1 "all"
        (fun _ => .failure) = .error .invalidCoordinateType ∧
    Err.invalidCoordinateType ≠ Err.invalidGalaxy := by
  decide

/-- C4 (amended): for every galaxy string that is not case-insensitively equal
to LMC or SMC, and all numeric ra and dec and all radius and teff values, the
call fails with InvalidGalaxy. -/
theorem c4_invalid_galaxy_amended
    (galaxy : String) (ra dec radius : ℚ) (teff : String)
    (respond : Request → HttpResult)
    (h1 : pyUpper galaxy ≠ "LMC") (h2 : pyUpper galaxy ≠ "SMC") :
    get_extinction galaxy (.num ra) (.num dec) radius teff respond =
      .error .invalidGalaxy := by
  have hv : validate galaxy (.num ra) (.num dec) radius teff = .error .invalidGalaxy := by
    simp only [validate]
    rw [if_neg h1, if_neg h2]
  unfold get_extinction
  rw [runQuery_of_validate_error respond hv]

/-- C4 amended, witness: galaxy "ANDROMEDA" with numeric coordinates fails with
InvalidGalaxy. -/
theorem c4_invalid_galaxy_amended_witness :
    get_extinction "ANDROMEDA" (.num (Rat.divInt 0 1)) (.num (Rat.divInt 0 1)) 1 "all"
        (fun _ => .failure) = .error .invalidGalaxy :=
  c4_invalid_galaxy_amended "ANDROMEDA" (Rat.divInt 0 1) (Rat.divInt 0 1) 1 "all"
    (fun _ => .failure) (by decide) (by decide)

/-- C5: for numeric ra and dec, a degree-scale ra (ra > 7 for LMC, ra > 6 for
SMC) makes the call fail with CoordinateUnitMismatch, for every dec, radius and
teff — in particular this failure takes precedence over the generic bounds
failure; and LMC with ra=5.20, dec=-69.50 passes the whole validation stage. -/
theorem c5_unit_mismatch_precedence :
    (∀ (galaxy : String) (ra dec radius : ℚ) (teff : String)
        (respond : Request → HttpResult),
      (pyUpper galaxy = "LMC" → ra > 7 →
        get_extinction galaxy (.num ra) (.num dec) radius teff respond =
          .error .coordinateUnitMismatch) ∧
      (pyUpper galaxy = "SMC" → ra > 6 →
        get_extinction galaxy (.num ra) (.num dec) radius teff respond =
          .error .coordinateUnitMismatch)) ∧
    validate "LMC" (.num (Rat.divInt 52 10)) (.num (Rat.divInt (-695) 10)) 1 "all" =
      .ok ⟨lmcURL, Rat.divInt 52 10, Rat.divInt (-695) 10, 1, "all"⟩ := by
  constructor
  · intro galaxy ra dec radius teff respond
    constructor
    · intro hL hra
      have hv : validate galaxy (.num ra) (.num dec) radius teff =
          .error .coordinateUnitMismatch := by
        simp only [validate]
        rw [if_pos hL, if_pos hra]
      unfold get_extinction
      rw [runQuery_of_validate_error respond hv]
    · intro hS hra
      have hL : ¬ pyUpper galaxy = "LMC" := by rw [hS]; decide
      have hv : validate galaxy (.num ra) (.num dec) radius teff =
          .error .coordinateUnitMismatch := by
        simp only [validate]
        rw [if_neg hL, if_pos hS, if_pos hra]
      unfold get_extinction
      rw [runQuery_of_validate_error respond hv]
  · decide

/-- C5, witness: LMC with the degree-scale ra=78.0 fails with
CoordinateUnitMismatch (even though 78 is also out of the LMC RA bounds). -/
theorem c5_unit_mismatch_precedence_witness :
    get_extinction "LMC" (.num 78) (.num (Rat.divInt (-695) 10)) 1 "all"
        (fun _ => .failure) = .error .coordinateUnitMismatch :=
  (c5_unit_mismatch_precedence.1 "LMC" 78 (Rat.divInt (-695) 10) 1 "all"
    (fun _ => .failure)).1 (by decide) (by decide)

/-- C6: for numeric coordinates that pass the unit-mismatch check, the call
fails with CoordinateOutOfRange exactly when (ra, dec) falls outside the
selected galaxy's rectangular bounds (LMC: RA 4.48-6.27 h, Dec -72.5..-65.2
deg; SMC: RA 0.375-1.375 h, Dec -74.9..-70.4 deg). -/
theorem c6_bounds_check
    (galaxy : String) (ra dec radius : ℚ) (teff : String)
    (respond : Request → HttpResult) :
    (pyUpper galaxy = "LMC" → ra ≤ 7 →
      (get_extinction galaxy (.num ra) (.num dec) radius teff respond =
          .error .coordinateOutOfRange ↔ ¬ inLMCBox ra dec)) ∧
    (pyUpper galaxy = "SMC" → ra ≤ 6 →
      (get_extinction galaxy (.num ra) (.num dec) radius teff respond =
          .error .coordinateOutOfRange ↔ ¬ inSMCBox ra dec)) := by
  constructor
  · intro hL hra
    constructor
    · intro h
      rcases get_extinction_error_origin h with hv | he | he
      · exact (validate_lmc_outOfRange hL hra).mp hv
      · exact absurd he (by decide)
      · exact absurd he (by decide)
    · intro hn
      have hv : validate galaxy (.num ra) (.num dec) radius teff =
          .error .coordinateOutOfRange := (validate_lmc_outOfRange hL hra).mpr hn
      unfold get_extinction
      rw [runQuery_of_validate_error respond hv]
  · intro hS hra
    constructor
    · intro h
      rcases get_extinction_error_origin h with hv | he | he
      · exact (validate_smc_outOfRange hS hra).mp hv
      · exact absurd he (by decide)
      · exact absurd he (by decide)
    · intro hn
      have hv : validate galaxy (.num ra) (.num dec) radius teff =
          .error .coordinateOutOfRange := (validate_smc_outOfRange hS hra).mpr hn
      unfold get_extinction
      rw [runQuery_of_validate_error respond hv]

/-- C6, witness: SMC with dec=-80.0 (outside -74.9..-70.4) fails with
CoordinateOutOfRange. -/
theorem c6_bounds_check_witness :
    get_extinction "SMC" (.num (Rat.divInt 75 100)) (.num (Rat.divInt (-80) 1)) 1 "all"
        (fun _ => .failure) = .error .coordinateOutOfRange :=
  ((c6_bounds_check "SMC" (Rat.divInt 75 100) (Rat.divInt (-80) 1) 1 "all"
    (fun _ => .failure)).2 (by decide) (by decide)).mpr (by decide)

/-- C7: with a recognized galaxy and in-footprint numeric coordinates, the call
fails with InvalidRadius exactly when 0 < radius ≤ 12 does not hold. -/
theorem c7_radius_check
    (galaxy : String) (ra dec radius : ℚ) (teff : String)
    (respond : Request → HttpResult) (hok : coordsOK galaxy ra dec) :
    (get_extinction galaxy (.num ra) (.num dec) radius teff respond =
        .error .invalidRadius ↔ ¬ (0 < radius ∧ radius ≤ 12)) := by
  constructor
  · intro h
    rcases get_extinction_error_origin h with hv | he | he
    · exact (validate_invalidRadius hok).mp hv
    · exact absurd he (by decide)
    · exact absurd he (by decide)
  · intro hn
    have hv : validate galaxy (.num ra) (.num dec) radius teff =
        .error .invalidRadius := (validate_invalidRadius hok).mpr hn
    unfold get_extinction
    rw [runQuery_of_validate_error respond hv]

/-- C7, witness: radius=0 and radius=12.01 fail with InvalidRadius and
radius=12.0 does not. -/
theorem c7_radius_check_witness :
    (get_extinction "LMC" (.num (Rat.divInt 52 10)) (.num (Rat.divInt (-695) 10)) 0 "all"
        (fun _ => .failure) = .error .invalidRadius) ∧
    (get_extinction "LMC" (.num (Rat.divInt 52 10)) (.num (Rat.divInt (-695) 10))
        (Rat.divInt 1201 100) "all" (fun _ => .failure) = .error .invalidRadius) ∧
    ¬ (get_extinction "LMC" (.num (Rat.divInt 52 10)) (.num (Rat.divInt (-695) 10)) 12 "all"
        (fun _ => .failure) = .error .invalidRadius) :=
  ⟨(c7_radius_check "LMC" (Rat.divInt 52 10) (Rat.divInt (-695) 10) 0 "all"
      (fun _ => .failure) (by decide)).mpr (by decide),
    (c7_radius_check "LMC" (Rat.divInt 52 10) (Rat.divInt (-695) 10) (Rat.divInt 1201 100)
      "all" (fun _ => .failure) (by decide)).mpr (by decide),
    fun h => (c7_radius_check "LMC" (Rat.divInt 52 10) (Rat.divInt (-695) 10) 12 "all"
      (fun _ => .failure) (by decide)).mp h ⟨by decide, by decide⟩⟩

/-- C8: when any validation check fails no HTTP request is made; when
validation passes exactly one GET is issued, to the selected galaxy's fixed
endpoint with query parameters ra, dec, searchrad=radius and teff. -/
theorem c8_single_request_after_validation
    (galaxy : String) (ra dec : PyVal) (radius : ℚ) (teff : String)
    (respond : Request → HttpResult) :
    (∀ e, validate galaxy ra dec radius teff = .error e →
        (runQuery galaxy ra dec radius teff respond).1 = []) ∧
    (∀ req, validate galaxy ra dec radius teff = .ok req →
        (runQuery galaxy ra dec radius teff respond).1 = [req] ∧
        ra = .num req.ra ∧ dec = .num req.dec ∧ req.searchrad = radius ∧
        req.teff = teff ∧
        ((pyUpper galaxy = "LMC" ∧ req.base_url = lmcURL) ∨
          (pyUpper galaxy = "SMC" ∧ req.base_url = smcURL))) := by
  constructor
  · intro e hv
    rw [runQuery_of_validate_error respond hv]
  · intro req hv
    exact ⟨runQuery_trace_ok respond hv, validate_ok_shape hv⟩

/-- C8, witness: a non-numeric ra issues no request (InvalidCoordinateType path)
and a fully valid input issues exactly the one expected request. -/
theorem c8_single_request_after_validation_witness :
    (runQuery "LMC" (.nonNum "04:30:00") (.num (Rat.divInt (-695) 10)) 1 "all"
        (fun _ => .failure)).1 = [] ∧
    (runQuery "LMC" (.num (Rat.divInt 52 10)) (.num (Rat.divInt (-695) 10)) 1 "all"
        (fun _ => .failure)).1 =
      [⟨lmcURL, Rat.divInt 52 10, Rat.divInt (-695) 10, 1, "all"⟩] :=
  ⟨(c8_single_request_after_validation "LMC" (.nonNum "04:30:00")
      (.num (Rat.divInt (-695) 10)) 1 "all" (fun _ => .failure)).1
      .invalidCoordinateType (by decide),
    ((c8_single_request_after_validation "LMC" (.num (Rat.divInt 52 10))
      (.num (Rat.divInt (-695) 10)) 1 "all" (fun _ => .failure)).2
      ⟨lmcURL, Rat.divInt 52 10, Rat.divInt (-695) 10, 1, "all"⟩ (by decide)).1⟩

/-- C9: the validation checks run in the fixed order ra-numeric, dec-numeric,
galaxy recognized, ra unit-mismatch, ra bounds, dec bounds, radius range, teff
membership: the error raised is exactly the error of the earliest violated
check in this order (`orderedError`); in particular a non-numeric ra together
with an unrecognized galaxy fails with the coordinate-type error, not
InvalidGalaxy. -/
theorem c9_validation_order :
    (∀ (galaxy : String) (ra dec : PyVal) (radius : ℚ) (teff : String) (e : Err),
      validate galaxy ra dec radius teff = .error e ↔
        orderedError galaxy ra dec radius teff = some e) ∧
    get_extinction "NGC104" (.nonNum "not a number") (.num (Rat.divInt (-695) 10)) 1 "all"
        (fun _ => .failure) = .error .invalidCoordinateType := by
  refine ⟨validate_eq_orderedError, ?_⟩
  decide

/-- C10: on a marker line, the value extraction takes the first
whitespace-delimited token after the FIRST `=` character of the line (the
segment between the first and second `=`), not the token after the marker's
own `=`; so any `=` occurring earlier in the line shifts what is parsed. -/
theorem c10_first_equals_sign (pre post : List Char) (h : '=' ∉ pre) :
    extractValue (pre ++ '=' :: post) =
      ((pySplitWs (post.takeWhile (fun c => !(c == '=')))).head?).bind parseFloatChars := by
  have hpre : ∀ x ∈ pre, (x == '=') = false := by
    intro x hx
    exact beq_eq_false_iff_ne.mpr (fun hEq => h (hEq ▸ hx))
  have hsplit : splitOnChar '=' (pre ++ '=' :: post) =
      pre :: splitWhen (fun d => d == '=') post := by
    unfold splitOnChar
    exact splitWhen_append (by simp) pre post hpre
  unfold extractValue
  rw [hsplit]
  cases hsw : splitWhen (fun d => d == '=') post with
  | nil => exact absurd hsw (splitWhen_ne_nil _ post)
  | cons t ts =>
    have hhead := splitWhen_head (fun d => d == '=') post
    rw [hsw] at hhead
    simp only [List.head?_cons, Option.some.injEq] at hhead
    subst hhead
    have h1 : (pre :: (post.takeWhile (fun c => !(c == '='))) :: ts)[1]? =
        some (post.takeWhile (fun c => !(c == '='))) := by simp
    simp only [h1]
    cases hpw : pySplitWs (post.takeWhile (fun c => !(c == '='))) with
    | nil => simp
    | cons tok toks => simp

/-- C10, witness: in the line `Note=see <Av> = 0.45` the first `=` precedes the
marker, so the token `see` is what gets parsed, and since it is non-numeric the
intended value 0.45 is not extracted. -/
theorem c10_first_equals_sign_witness :
    extractValue ("Note".toList ++ '=' :: "see <Av> = 0.45".toList) =
      ((pySplitWs (("see <Av> = 0.45".toList).takeWhile
        (fun c => !(c == '=')))).head?).bind parseFloatChars ∧
    extractValue ("Note".toList ++ '=' :: "see <Av> = 0.45".toList) = none :=
  ⟨c10_first_equals_sign "Note".toList "see <Av> = 0.45".toList (by decide), by decide⟩

end ZhScraper
